import Mathlib

/-!
Shallow embedding of `src/lib/calculations.ts` (fitness calculator core
calculation engine) over exact rationals.  JavaScript numbers are modelled
as `ℚ`; decimal literals denote the exact rationals they spell.
`Math.round` is JavaScript rounding (floor of x + 1/2), `Math.max`/`Math.min`
are `max`/`min` on `ℚ`.  Optional values are `Option`; the JavaScript
truthiness test on an optional number (`a?.b && ...`) is "present and
nonzero".
-/

namespace Kalorien

/-- JavaScript `Math.round`: rounds half-up (toward positive infinity). -/
def jsRound (x : ℚ) : ℚ := ((x + 1/2).floor : ℤ)

inductive Gender where
  | male
  | female
deriving DecidableEq, Repr

inductive UnitSystem where
  | metric
  | imperial
deriving DecidableEq, Repr

inductive ActivityLevel where
  | sedentary
  | lightActivity
  | moderateActivity
  | highActivity
  | veryHighActivity
deriving DecidableEq, Repr

/-- `UserData.measurements`: optional circumferences, each independently optional. -/
structure Measurements where
  waist : Option ℚ
  hips : Option ℚ
  neck : Option ℚ
  shoulders : Option ℚ
deriving DecidableEq, Repr

/-- The `UserData` interface. -/
structure UserData where
  gender : Gender
  unitSystem : UnitSystem
  age : ℚ
  height : ℚ
  weight : ℚ
  activityLevel : ActivityLevel
  bodyFat : Option ℚ
  measurements : Option Measurements
deriving DecidableEq, Repr

/-- Activity level multipliers for TDEE calculation. -/
def activityMultipliers : ActivityLevel → ℚ
  | .sedentary => 1.2
  | .lightActivity => 1.375
  | .moderateActivity => 1.55
  | .highActivity => 1.725
  | .veryHighActivity => 1.9

/-- One entry of the `bmiCategories` table: label, UI color, `[min,max)` range. -/
structure BMICategory where
  label : String
  color : String
  range : ℚ × ℚ
deriving DecidableEq, Repr

/-- BMI categories with colors for UI. -/
def bmiCategories : List BMICategory :=
  [ ⟨"Underweight", "#87CEEB", (0, 18.5)⟩,
    ⟨"Normal weight", "#90EE90", (18.5, 25)⟩,
    ⟨"Overweight", "#FFD700", (25, 30)⟩,
    ⟨"Obese I", "#FFA500", (30, 35)⟩,
    ⟨"Obese II", "#FF6347", (35, 40)⟩,
    ⟨"Obese III", "#DC143C", (40, 100)⟩ ]

inductive WeightUnit where
  | kg
  | lbs
deriving DecidableEq, Repr

inductive HeightUnit where
  | cm
  | ftIn
deriving DecidableEq, Repr

/-- `convertWeight(weight, from, to)`. -/
def convertWeight (weight : ℚ) (src dst : WeightUnit) : ℚ :=
  if src = dst then weight
  else if src = .kg ∧ dst = .lbs then weight * 2.20462
  else if src = .lbs ∧ dst = .kg then weight / 2.20462
  else weight

/-- `convertHeight(height, from, to)`; the ft-in side carries total inches. -/
def convertHeight (height : ℚ) (src dst : HeightUnit) : ℚ :=
  if src = dst then height
  else if src = .cm ∧ dst = .ftIn then height / 2.54
  else if src = .ftIn ∧ dst = .cm then height * 2.54
  else height

/-- `calculateBMR`: Katch-McArdle when a positive body-fat percentage is
provided, otherwise the sex-branched Mifflin-St Jeor equation. -/
def calculateBMR (gender : Gender) (weight height age : ℚ)
    (bodyFatPercentage : Option ℚ) : ℚ :=
  match bodyFatPercentage with
  | some bf =>
    if bf > 0 then
      let leanBodyMass := weight * (1 - bf / 100)
      370 + 21.6 * leanBodyMass
    else
      match gender with
      | .male => 88.362 + 13.397 * weight + 4.799 * height - 5.677 * age
      | .female => 447.593 + 9.247 * weight + 3.098 * height - 4.33 * age
  | none =>
    match gender with
    | .male => 88.362 + 13.397 * weight + 4.799 * height - 5.677 * age
    | .female => 447.593 + 9.247 * weight + 3.098 * height - 4.33 * age

/-- `calculateBMI`: weight in kg, height in cm. -/
def calculateBMI (weight height : ℚ) : ℚ :=
  let heightInMeters := height / 100
  weight / (heightInMeters * heightInMeters)

/-- The result record of `getBMICategory`. -/
structure BMICategoryResult where
  category : String
  categoryIndex : ℕ
deriving DecidableEq, Repr

/-- The scan loop inside `getBMICategory`: first table entry whose
half-open range `[min, max)` contains the value, with its index. -/
def findBMICategory : List BMICategory → ℕ → ℚ → Option BMICategoryResult
  | [], _, _ => none
  | c :: rest, i, bmi =>
    if c.range.1 ≤ bmi ∧ bmi < c.range.2 then some ⟨c.label, i⟩
    else findBMICategory rest (i + 1) bmi

/-- `getBMICategory`: table scan with fall-back to the last entry. -/
def getBMICategory (bmi : ℚ) : BMICategoryResult :=
  match findBMICategory bmiCategories 0 bmi with
  | some r => r
  | none =>
    ⟨((bmiCategories.getD (bmiCategories.length - 1) ⟨"", "", (0, 0)⟩).label),
      bmiCategories.length - 1⟩

/-- `calculateWHR`. -/
def calculateWHR (waist hips : ℚ) : ℚ := waist / hips

/-- The result record of `getWHRCategory`. -/
structure WHRCategoryResult where
  category : String
  description : String
  imageIndex : ℕ
deriving DecidableEq, Repr

/-- `getWHRCategory`: four bands on the ratio, sex-independent. -/
def getWHRCategory (whr : ℚ) (_gender : Gender) : WHRCategoryResult :=
  if whr ≤ 0.85 then
    ⟨"Peripheral Body Type",
      "Fat accumulates in your body especially on your hips and buttocks. It does not pose a major health risk. This body type is primarily determined by genetics.",
      0⟩
  else if whr ≤ 0.9 then
    ⟨"Balanced Character Type",
      "Fat in your body accumulates evenly. From a health point of view (in relation to the distribution of fat on the body), this body type is considered ideal and there is no greater risk of health complications.",
      1⟩
  else if whr ≤ 0.94 then
    ⟨"Central Character Type",
      "Fat accumulates in your abdomen to a greater extent. Even if the waist circumference is smaller than the hip circumference, there is an increased risk of health conditions.",
      2⟩
  else
    ⟨"Risky Character Type",
      "You have excess fat reserves in the abdominal area. Apple-type obesity is a risk factor for cardiovascular disease, stroke, high blood pressure or type 2 diabetes.",
      3⟩

/-- `calculateTDEE`. -/
def calculateTDEE (bmr : ℚ) (activityLevel : ActivityLevel) : ℚ :=
  bmr * activityMultipliers activityLevel

/-- A lower/upper/target weight range record. -/
structure WeightRange where
  lower : ℚ
  upper : ℚ
  target : ℚ
deriving DecidableEq, Repr

/-- `calculateIdealWeightRange`: BMI 20/24/22 against height. -/
def calculateIdealWeightRange (height : ℚ) : WeightRange :=
  let heightInMeters := height / 100
  ⟨20 * (heightInMeters * heightInMeters),
    24 * (heightInMeters * heightInMeters),
    22 * (heightInMeters * heightInMeters)⟩

/-- `calculateAdonisWeightRange`. -/
def calculateAdonisWeightRange (height : ℚ) (gender : Gender) : WeightRange :=
  let heightInMeters := height / 100
  match gender with
  | .male =>
    ⟨21 * (heightInMeters * heightInMeters),
      25 * (heightInMeters * heightInMeters),
      23 * (heightInMeters * heightInMeters)⟩
  | .female =>
    ⟨20 * (heightInMeters * heightInMeters),
      24 * (heightInMeters * heightInMeters),
      22 * (heightInMeters * heightInMeters)⟩

/-- `calculateBodyCompAdjustedWeight`: base BMI adjusted for body fat and
frame size, clamped to [18.5, 28]. -/
def calculateBodyCompAdjustedWeight (height : ℚ) (gender : Gender)
    (bodyFatPercentage : Option ℚ) (shoulderWidth : Option ℚ) : WeightRange :=
  let heightInMeters := height / 100
  let baseBMI0 : ℚ := if gender = .male then 22.5 else 21.5
  let baseBMI1 : ℚ :=
    match bodyFatPercentage with
    | some bf =>
      let optimalBodyFat : ℚ := if gender = .male then 15 else 23
      let bodyFatDiff := bf - optimalBodyFat
      baseBMI0 + (-bodyFatDiff * 0.1)
    | none => baseBMI0
  let baseBMI2 : ℚ :=
    match shoulderWidth with
    | some sw =>
      if gender = .male then
        let shoulderToHeightRatio := sw / height
        let ratioDiff := shoulderToHeightRatio - 0.26
        baseBMI1 + ratioDiff * 10
      else baseBMI1
    | none => baseBMI1
  let baseBMI := max 18.5 (min 28 baseBMI2)
  ⟨(baseBMI - 1.5) * (heightInMeters * heightInMeters),
    (baseBMI + 1.5) * (heightInMeters * heightInMeters),
    baseBMI * (heightInMeters * heightInMeters)⟩

/-- `calculateSafeMinimumCalories`: sex base with size adjustment. -/
def calculateSafeMinimumCalories (gender : Gender) (weight : ℚ) : ℚ :=
  let sizeAdjustment := max 0 ((weight - 70) * 5)
  match gender with
  | .male => max (1500 + sizeAdjustment) 1400
  | .female => max (1200 + sizeAdjustment) 1100

/-- `ensureAboveBMR`: never below 90% of BMR. -/
def ensureAboveBMR (calories bmr : ℚ) : ℚ :=
  let minimumSafeBMR := bmr * 0.9
  max calories minimumSafeBMR

/-- `calculateSafeDeficit`: BMI-banded percentage of TDEE, rounded,
clamped to the NIH bounds [500, 1000]. -/
def calculateSafeDeficit (bmi tdee : ℚ) : ℚ :=
  let deficitPercentage : ℚ :=
    if bmi < 18.5 then 0.05
    else if bmi < 25 then 0.15
    else if bmi < 30 then 0.2
    else if bmi < 35 then 0.25
    else 0.3
  let percentageDeficit := jsRound (tdee * deficitPercentage)
  max 500 (min 1000 percentageDeficit)

/-- The calorie targets record. -/
structure CalorieTargets where
  maintenance : ℚ
  rapidLoss : ℚ
  slowLoss : ℚ
  muscleGain : ℚ
deriving DecidableEq, Repr

/-- `calculateCalorieTargets`: safety-chained loss targets plus
maintenance and muscle-gain. -/
def calculateCalorieTargets (tdee : ℚ) (gender : Gender) (weight bmi bmr : ℚ) :
    CalorieTargets :=
  let safeDeficit := calculateSafeDeficit bmi tdee
  let minCalories := calculateSafeMinimumCalories gender weight
  let rapidLoss := max minCalories (tdee - safeDeficit)
  let slowLoss := max minCalories (tdee - min 400 (safeDeficit * 0.8))
  ⟨tdee, ensureAboveBMR rapidLoss bmr, ensureAboveBMR slowLoss bmr, tdee + 300⟩

/-- `calculateWeeklyFatLoss`: pounds per week from a daily deficit. -/
def calculateWeeklyFatLoss (calorieDeficit : ℚ) : ℚ :=
  calorieDeficit * 7 / 3500

/-- `calculateWaterWeightFluctuation`. -/
def calculateWaterWeightFluctuation (weight : ℚ) : ℚ :=
  weight * 0.015

/-- `calculateProteinIntakePerKg`. -/
def calculateProteinIntakePerKg (targetWeightKg : ℚ) (gramsPerKg : ℚ := 0.8) : ℚ :=
  targetWeightKg * gramsPerKg

/-- `calculateProteinIntakePerLb`. -/
def calculateProteinIntakePerLb (targetWeightLbs : ℚ) (gramsPerLb : ℚ := 0.8) : ℚ :=
  targetWeightLbs * gramsPerLb

/-- Legacy `calculateProteinIntake`. -/
def calculateProteinIntake (targetWeight : ℚ) (proteinPerKg : ℚ := 0.8) : ℚ :=
  targetWeight * proteinPerKg

/-- `calculateIdealWaistSize`: half the height, sex-independent. -/
def calculateIdealWaistSize (heightInCm : ℚ) (_gender : Gender) : ℚ :=
  heightInCm * 0.5

/-- `calculateBestTargetWeight`: body-comp-adjusted target when available. -/
def calculateBestTargetWeight (idealWeightRange : WeightRange)
    (bodyCompAdjustedWeight : Option WeightRange) : ℚ :=
  match bodyCompAdjustedWeight with
  | some r => r.target
  | none => idealWeightRange.target

/-- `calculateRapidWeightLossCalories`. -/
def calculateRapidWeightLossCalories (tdee : ℚ) (gender : Gender)
    (weight bmi bmr : ℚ) : ℚ :=
  let safeDeficit := calculateSafeDeficit bmi tdee
  let minCalories := calculateSafeMinimumCalories gender weight
  let rapidCalories := max minCalories (tdee - safeDeficit)
  ensureAboveBMR rapidCalories bmr

/-- `calculateSustainableWeightLossCalories`. -/
def calculateSustainableWeightLossCalories (tdee : ℚ) (gender : Gender)
    (weight bmi bmr : ℚ) : ℚ :=
  let safeDeficit := calculateSafeDeficit bmi tdee
  let minCalories := calculateSafeMinimumCalories gender weight
  let sustainableDeficit := min 400 (safeDeficit * 0.8)
  let sustainableCalories := max minCalories (tdee - sustainableDeficit)
  ensureAboveBMR sustainableCalories bmr

/-- `calculateMaxWeeklyFatLoss`: kg per week at 7700 kcal per kg. -/
def calculateMaxWeeklyFatLoss (rapidCalorieDeficit : ℚ) : ℚ :=
  rapidCalorieDeficit * 7 / 7700

/-- `calculateSustainableWeeklyFatLoss`. -/
def calculateSustainableWeeklyFatLoss (sustainableCalorieDeficit : ℚ) : ℚ :=
  sustainableCalorieDeficit * 7 / 7700

/-- `calculateProteinIntakeForTarget`: per-pound path by default. -/
def calculateProteinIntakeForTarget (targetWeightKg : ℚ)
    (proteinSetting : ℚ := 0.8) (isPerPound : Bool := true) : ℚ :=
  if isPerPound then
    let targetWeightLbs := targetWeightKg * 2.20462
    calculateProteinIntakePerLb targetWeightLbs proteinSetting
  else
    calculateProteinIntakePerKg targetWeightKg proteinSetting

/-- The `whr` result record inside `CalculationResults`. -/
structure WHRResult where
  value : ℚ
  category : String
  description : String
  imageIndex : ℕ
deriving DecidableEq, Repr

/-- The goal-specific recommendations record. -/
structure GoalRecommendations where
  idealWaistSize : ℚ
  bestTargetWeight : ℚ
  rapidWeightLossCalories : ℚ
  sustainableWeightLossCalories : ℚ
  maxWeeklyFatLoss : ℚ
  sustainableWeeklyFatLoss : ℚ
  proteinIntakeForTarget : ℚ
deriving DecidableEq, Repr

/-- The `bmi` result record inside `CalculationResults`. -/
structure BMIResult where
  value : ℚ
  category : String
  categoryIndex : ℕ
deriving DecidableEq, Repr

/-- The weekly fat-loss record inside `CalculationResults`. -/
structure WeeklyFatLoss where
  rapid : ℚ
  slow : ℚ
deriving DecidableEq, Repr

/-- The `CalculationResults` interface. -/
structure CalculationResults where
  bmr : ℚ
  bmi : BMIResult
  whr : Option WHRResult
  tdee : ℚ
  idealWeightRange : WeightRange
  adonisWeightRange : WeightRange
  bodyCompAdjustedWeight : WeightRange
  calorieTargets : CalorieTargets
  weeklyFatLoss : WeeklyFatLoss
  waterWeightFluctuation : ℚ
  proteinIntake : ℚ
  goalRecommendations : GoalRecommendations
deriving DecidableEq, Repr

/-- `calculateAllResults`: the orchestrator assembling the full record.
The guard `userData.measurements?.waist && userData.measurements?.hips`
is JavaScript truthiness: each measurement must be present and nonzero. -/
def calculateAllResults (userData : UserData) (proteinPerKg : ℚ := 0.8) :
    CalculationResults :=
  let bmr := calculateBMR userData.gender userData.weight userData.height
    userData.age userData.bodyFat
  let bmiValue := calculateBMI userData.weight userData.height
  let bmiData := getBMICategory bmiValue
  let tdee := calculateTDEE bmr userData.activityLevel
  let idealWeightRange := calculateIdealWeightRange userData.height
  let adonisWeightRange := calculateAdonisWeightRange userData.height
    userData.gender
  let bodyCompAdjustedWeight := calculateBodyCompAdjustedWeight userData.height
    userData.gender userData.bodyFat
    (userData.measurements.bind Measurements.shoulders)
  let calorieTargets := calculateCalorieTargets tdee userData.gender
    userData.weight bmiValue bmr
  let whr : Option WHRResult :=
    match userData.measurements with
    | some m =>
      match m.waist, m.hips with
      | some w, some hp =>
        if w ≠ 0 ∧ hp ≠ 0 then
          let whrValue := calculateWHR w hp
          let whrCategory := getWHRCategory whrValue userData.gender
          some ⟨whrValue, whrCategory.category, whrCategory.description,
            whrCategory.imageIndex⟩
        else none
      | _, _ => none
    | none => none
  let idealWaistSize := calculateIdealWaistSize userData.height userData.gender
  let bestTargetWeight := calculateBestTargetWeight idealWeightRange
    (some bodyCompAdjustedWeight)
  let rapidWeightLossCalories := calculateRapidWeightLossCalories tdee
    userData.gender userData.weight bmiValue bmr
  let sustainableWeightLossCalories := calculateSustainableWeightLossCalories
    tdee userData.gender userData.weight bmiValue bmr
  let safeDeficit := calculateSafeDeficit bmiValue tdee
  let maxWeeklyFatLoss := calculateMaxWeeklyFatLoss safeDeficit
  let sustainableWeeklyFatLoss := calculateSustainableWeeklyFatLoss
    (min 400 (safeDeficit * 0.8))
  let proteinIntakeForTarget := calculateProteinIntakeForTarget
    bestTargetWeight proteinPerKg
  { bmr := bmr
    bmi := ⟨bmiValue, bmiData.category, bmiData.categoryIndex⟩
    whr := whr
    tdee := tdee
    idealWeightRange := idealWeightRange
    adonisWeightRange := adonisWeightRange
    bodyCompAdjustedWeight := bodyCompAdjustedWeight
    calorieTargets := calorieTargets
    weeklyFatLoss := ⟨calculateWeeklyFatLoss 700, calculateWeeklyFatLoss 400⟩
    waterWeightFluctuation := calculateWaterWeightFluctuation userData.weight
    proteinIntake := calculateProteinIntake idealWeightRange.target proteinPerKg
    goalRecommendations :=
      ⟨idealWaistSize, bestTargetWeight, rapidWeightLossCalories,
        sustainableWeightLossCalories, maxWeeklyFatLoss,
        sustainableWeeklyFatLoss, proteinIntakeForTarget⟩ }

/-- `Partial<UserData>`: every field optional, as passed to validation. -/
structure PartialUserData where
  gender : Option Gender
  unitSystem : Option UnitSystem
  age : Option ℚ
  height : Option ℚ
  weight : Option ℚ
  activityLevel : Option ActivityLevel
  bodyFat : Option ℚ
  measurements : Option Measurements
deriving DecidableEq, Repr

/-- The `fieldErrors` record of `ValidationResult`. -/
structure FieldErrors where
  age : Option String
  height : Option String
  weight : Option String
  bodyFat : Option String
  waist : Option String
  hips : Option String
  neck : Option String
  shoulders : Option String
deriving DecidableEq, Repr

/-- The `ValidationResult` interface. -/
structure ValidationResult where
  isValid : Bool
  errors : List String
  fieldErrors : FieldErrors
deriving DecidableEq, Repr

/-- Error produced by a range check on an optional field: `some msg` when
the field is present and out of range. -/
def rangeError (v : Option ℚ) (lo hi : ℚ) (msg : String) : Option String :=
  match v with
  | some x => if x < lo ∨ x > hi then some msg else none
  | none => none

/-- The age check of `validateUserData`. -/
def ageError (userData : PartialUserData) : Option String :=
  rangeError userData.age 10 120 "Age must be between 10 and 120 years"

/-- The weight check of `validateUserData`. -/
def weightError (userData : PartialUserData) : Option String :=
  rangeError userData.weight 10 227 "Weight must be between 10 and 227 kg (500 lbs)"

/-- The height check of `validateUserData`. -/
def heightError (userData : PartialUserData) : Option String :=
  rangeError userData.height 50 250 "Height must be between 50 and 250 cm"

/-- The body-fat check of `validateUserData`. -/
def bodyFatError (userData : PartialUserData) : Option String :=
  rangeError userData.bodyFat 5 45 "Body fat percentage must be between 5% and 45%"

/-- The waist circumference check of `validateUserData`. -/
def waistError (userData : PartialUserData) : Option String :=
  rangeError (userData.measurements.bind Measurements.waist) 30 200
    "Waist circumference must be between 30 and 200 cm"

/-- The hips circumference check of `validateUserData`. -/
def hipsError (userData : PartialUserData) : Option String :=
  rangeError (userData.measurements.bind Measurements.hips) 40 220
    "Hips circumference must be between 40 and 220 cm"

/-- The neck circumference check of `validateUserData`. -/
def neckError (userData : PartialUserData) : Option String :=
  rangeError (userData.measurements.bind Measurements.neck) 20 60
    "Neck circumference must be between 20 and 60 cm"

/-- The shoulder circumference check of `validateUserData`. -/
def shouldersError (userData : PartialUserData) : Option String :=
  rangeError (userData.measurements.bind Measurements.shoulders) 30 130
    "Shoulder circumference must be between 30 and 130 cm"

/-- `validateUserData`: collects range errors in source order (age, weight,
height, body fat, then waist/hips/neck/shoulders).  Circumference errors
always land in `fieldErrors` but enter `errors` only when
`measurementsOptional` is true.  `isValid` is `errors.length === 0`. -/
def validateUserData (userData : PartialUserData)
    (measurementsOptional : Bool := true) : ValidationResult :=
  let errors :=
    (ageError userData).toList ++ (weightError userData).toList
      ++ (heightError userData).toList ++ (bodyFatError userData).toList
      ++ (if measurementsOptional then
            (waistError userData).toList ++ (hipsError userData).toList
              ++ (neckError userData).toList ++ (shouldersError userData).toList
          else [])
  { isValid := errors.length == 0
    errors := errors
    fieldErrors := ⟨ageError userData, heightError userData,
      weightError userData, bodyFatError userData, waistError userData,
      hipsError userData, neckError userData, shouldersError userData⟩ }

/-- `recalculateWithTargetWeight`: shallow-override the weight and re-run
the full orchestrator. -/
def recalculateWithTargetWeight (userData : UserData) (targetWeightKg : ℚ)
    (proteinPerKg : ℚ := 0.8) : CalculationResults :=
  let modifiedUserData := { userData with weight := targetWeightKg }
  calculateAllResults modifiedUserData proteinPerKg

/-- `convertTargetWeightToKg` (numeric branch of the number-or-string input). -/
def convertTargetWeightToKg (targetWeight : ℚ) (unitSystem : UnitSystem) : ℚ :=
  match unitSystem with
  | .imperial => targetWeight / 2.20462
  | .metric => targetWeight

/-! ## Theorems -/

/-- C1: for every `bmi ∈ [0,60]` and `tdee ∈ [500,6000]`,
`calculateSafeDeficit bmi tdee` lies in `[500,1000]`, and it equals
`round(tdee * p)` clamped to `[500,1000]` where `p` is the BMI-banded
percentage (0.05 below 18.5, 0.15 below 25, 0.2 below 30, 0.25 below 35,
0.3 otherwise). -/
theorem calculateSafeDeficit_clamps_and_bands (bmi tdee : ℚ)
    (hb0 : 0 ≤ bmi) (hb1 : bmi ≤ 60) (ht0 : 500 ≤ tdee) (ht1 : tdee ≤ 6000) :
    (500 ≤ calculateSafeDeficit bmi tdee ∧
      calculateSafeDeficit bmi tdee ≤ 1000) ∧
    calculateSafeDeficit bmi tdee =
      max 500 (min 1000 (jsRound (tdee *
        (if bmi < 18.5 then 0.05
         else if bmi < 25 then 0.15
         else if bmi < 30 then 0.2
         else if bmi < 35 then 0.25
         else 0.3)))) := by
  refine ⟨⟨le_max_left _ _, max_le (by norm_num) (min_le_left _ _)⟩, rfl⟩

/-- C1 witness: the clamp and band formula at `bmi = 22`, `tdee = 2000`. -/
theorem calculateSafeDeficit_clamps_and_bands_witness :
    (500 ≤ calculateSafeDeficit 22 2000 ∧
      calculateSafeDeficit 22 2000 ≤ 1000) ∧
    calculateSafeDeficit 22 2000 =
      max 500 (min 1000 (jsRound ((2000 : ℚ) *
        (if (22 : ℚ) < 18.5 then 0.05
         else if (22 : ℚ) < 25 then 0.15
         else if (22 : ℚ) < 30 then 0.2
         else if (22 : ℚ) < 35 then 0.25
         else 0.3)))) :=
  calculateSafeDeficit_clamps_and_bands 22 2000 (by norm_num) (by norm_num)
    (by norm_num) (by norm_num)

/-- C2: `calculateCalorieTargets` returns maintenance = tdee,
muscleGain = tdee + 300, and both loss targets clamped first by the
size/sex minimum and last by the BMR floor, in that order; and the
orchestrator's `calorieTargets` field is exactly that function applied to
the derived tdee/bmi/bmr. -/
theorem calculateCalorieTargets_spec (tdee : ℚ) (gender : Gender)
    (weight bmi bmr : ℚ) (u : UserData) (p : ℚ) :
    calculateCalorieTargets tdee gender weight bmi bmr =
      { maintenance := tdee
        rapidLoss := ensureAboveBMR
          (max (calculateSafeMinimumCalories gender weight)
            (tdee - calculateSafeDeficit bmi tdee)) bmr
        slowLoss := ensureAboveBMR
          (max (calculateSafeMinimumCalories gender weight)
            (tdee - min 400 (calculateSafeDeficit bmi tdee * 0.8))) bmr
        muscleGain := tdee + 300 } ∧
    (calculateAllResults u p).calorieTargets =
      calculateCalorieTargets
        (calculateTDEE
          (calculateBMR u.gender u.weight u.height u.age u.bodyFat)
          u.activityLevel)
        u.gender u.weight (calculateBMI u.weight u.height)
        (calculateBMR u.gender u.weight u.height u.age u.bodyFat) :=
  ⟨rfl, rfl⟩

/-- C3: exactly one BMR branch fires: absent or zero body fat gives the
sex-branched Mifflin-St Jeor value, while positive body fat gives the
Katch-McArdle value `370 + 21.6 * weight * (1 - bodyFat/100)`, which is
independent of age and sex. -/
theorem calculateBMR_branch_exclusive (g g2 : Gender) (w h a a2 : ℚ) :
    (calculateBMR g w h a none =
      (match g with
       | Gender.male => 88.362 + 13.397 * w + 4.799 * h - 5.677 * a
       | Gender.female => 447.593 + 9.247 * w + 3.098 * h - 4.33 * a)) ∧
    (calculateBMR g w h a (some 0) =
      (match g with
       | Gender.male => 88.362 + 13.397 * w + 4.799 * h - 5.677 * a
       | Gender.female => 447.593 + 9.247 * w + 3.098 * h - 4.33 * a)) ∧
    (∀ bf : ℚ, 0 < bf →
      calculateBMR g w h a (some bf) = 370 + 21.6 * (w * (1 - bf / 100)) ∧
      calculateBMR g w h a (some bf) = calculateBMR g2 w h a2 (some bf)) := by
  refine ⟨rfl, by simp [calculateBMR], fun bf hbf => ?_⟩
  simp [calculateBMR, hbf]

/-- C3 witness: with body fat 20, the Katch-McArdle value, independent of
age and sex. -/
theorem calculateBMR_branch_exclusive_witness :
    calculateBMR Gender.male 80 180 30 (some 20) =
      370 + 21.6 * (80 * (1 - 20 / 100)) ∧
    calculateBMR Gender.male 80 180 30 (some 20) =
      calculateBMR Gender.female 80 180 45 (some 20) :=
  (calculateBMR_branch_exclusive Gender.male Gender.female 80 180 30 45).2.2
    20 (by norm_num)

/-- C4: `recalculateWithTargetWeight` is exactly the full orchestrator on
the profile with its weight overridden. -/
theorem recalculateWithTargetWeight_eq_override (u : UserData) (w p : ℚ) :
    recalculateWithTargetWeight u w p =
      calculateAllResults { u with weight := w } p := rfl

/-- C5: `getBMICategory` maps 18.5 to "Normal weight" (lower bounds
inclusive), 25 to "Overweight", any value matching no band (in
particular any value at least 100) to the fall-back "Obese III" with
index 5, and always returns one of the six categories with index at
most 5. -/
theorem getBMICategory_total_and_boundaries :
    getBMICategory 18.5 = ⟨"Normal weight", 1⟩ ∧
    getBMICategory 25 = ⟨"Overweight", 2⟩ ∧
    (∀ bmi : ℚ, 100 ≤ bmi → getBMICategory bmi = ⟨"Obese III", 5⟩) ∧
    (∀ bmi : ℚ, (getBMICategory bmi).categoryIndex ≤ 5 ∧
      (getBMICategory bmi).category ∈
        ["Underweight", "Normal weight", "Overweight", "Obese I",
          "Obese II", "Obese III"]) := by
  refine ⟨by norm_num [getBMICategory, findBMICategory, bmiCategories],
    by norm_num [getBMICategory, findBMICategory, bmiCategories],
    fun bmi h => ?_, fun bmi => ?_⟩
  · simp only [getBMICategory, findBMICategory, bmiCategories]
    split_ifs with h1 h2 h3 h4 h5 h6
    · exact absurd h1.2 (by push_neg; linarith)
    · exact absurd h2.2 (by push_neg; linarith)
    · exact absurd h3.2 (by push_neg; linarith)
    · exact absurd h4.2 (by push_neg; linarith)
    · exact absurd h5.2 (by push_neg; linarith)
    · exact absurd h6.2 (by push_neg; linarith)
    · rfl
  · simp only [getBMICategory, findBMICategory, bmiCategories]
    split_ifs <;> simp

/-- C5 witness: an out-of-table value falls back to "Obese III". -/
theorem getBMICategory_total_and_boundaries_witness :
    getBMICategory 150 = ⟨"Obese III", 5⟩ :=
  getBMICategory_total_and_boundaries.2.2.1 150 (by norm_num)

/-- The `whr` field of the orchestrator, unfolded: the truthiness-guarded
waist/hips branch. -/
theorem calculateAllResults_whr (u : UserData) (p : ℚ) :
    (calculateAllResults u p).whr =
      (match u.measurements with
       | some m =>
         match m.waist, m.hips with
         | some w, some hp =>
           if w ≠ 0 ∧ hp ≠ 0 then
             some ⟨calculateWHR w hp,
               (getWHRCategory (calculateWHR w hp) u.gender).category,
               (getWHRCategory (calculateWHR w hp) u.gender).description,
               (getWHRCategory (calculateWHR w hp) u.gender).imageIndex⟩
           else none
         | _, _ => none
       | none => none) := rfl

/-- A profile that supplies both waist and hips, with waist written as 0. -/
def zeroWaistProfile : UserData :=
  ⟨Gender.male, UnitSystem.metric, 30, 180, 80, ActivityLevel.moderateActivity,
    none, some ⟨some 0, some 100, none, none⟩⟩

/-- C6 counterexample: both waist and hips are supplied (waist = 0,
hips = 100) yet the `whr` field is absent, because the guard is
JavaScript truthiness, not presence. -/
theorem whr_absent_though_supplied :
    zeroWaistProfile.measurements = some ⟨some 0, some 100, none, none⟩ ∧
    (calculateAllResults zeroWaistProfile 0.8).whr = none := by
  refine ⟨rfl, ?_⟩
  rw [calculateAllResults_whr]
  norm_num [zeroWaistProfile]

/-- C6 amended: the `whr` field is present iff both waist and hips are
supplied with nonzero (truthy) values; when present it is `waist / hips`
with the category record of the four ratio bands (at most 0.85 for index
0, at most 0.9 for index 1, at most 0.94 for index 2, else index 3). -/
theorem whr_presence_amended (u : UserData) (p : ℚ) :
    ((calculateAllResults u p).whr.isSome = true ↔
      ∃ m w hp, u.measurements = some m ∧ m.waist = some w ∧
        m.hips = some hp ∧ w ≠ 0 ∧ hp ≠ 0) ∧
    (∀ m w hp, u.measurements = some m → m.waist = some w →
      m.hips = some hp → w ≠ 0 → hp ≠ 0 →
      (calculateAllResults u p).whr =
        some ⟨w / hp, (getWHRCategory (w / hp) u.gender).category,
          (getWHRCategory (w / hp) u.gender).description,
          (getWHRCategory (w / hp) u.gender).imageIndex⟩) ∧
    (∀ r : ℚ, ∀ g : Gender,
      (r ≤ 0.85 → (getWHRCategory r g).imageIndex = 0 ∧
        (getWHRCategory r g).category = "Peripheral Body Type") ∧
      (0.85 < r ∧ r ≤ 0.9 → (getWHRCategory r g).imageIndex = 1 ∧
        (getWHRCategory r g).category = "Balanced Character Type") ∧
      (0.9 < r ∧ r ≤ 0.94 → (getWHRCategory r g).imageIndex = 2 ∧
        (getWHRCategory r g).category = "Central Character Type") ∧
      (0.94 < r → (getWHRCategory r g).imageIndex = 3 ∧
        (getWHRCategory r g).category = "Risky Character Type")) := by
  obtain ⟨g, us, age, ht, wt, al, bf, ms⟩ := u
  refine ⟨?_, ?_, fun r g2 => ⟨fun ha => ?_, fun ha => ?_, fun ha => ?_,
    fun ha => ?_⟩⟩
  · rw [calculateAllResults_whr]
    rcases ms with _ | ⟨mw, mh, mn, msh⟩
    · simp
    · rcases mw with _ | w
      · simp
      · rcases mh with _ | hp
        · simp
        · by_cases hw0 : w = 0
          · simp [hw0]
          · by_cases hh0 : hp = 0
            · simp [hw0, hh0]
            · simp only [calculateAllResults_whr, hw0, hh0, ne_eq,
                not_false_iff, and_self, if_true, Option.isSome_some,
                true_iff]
              exact ⟨⟨some w, some hp, mn, msh⟩, w, hp, rfl, rfl, rfl,
                hw0, hh0⟩
  · rintro ⟨mw, mh, mn, msh⟩ w hp hm hw hh hw0 hh0
    rw [calculateAllResults_whr]
    simp only at hm
    rw [hm]
    simp only at hw hh
    rw [hw, hh]
    simp [hw0, hh0, calculateWHR]
  · rw [getWHRCategory, if_pos ha]; exact ⟨rfl, rfl⟩
  · rw [getWHRCategory, if_neg (not_le.mpr ha.1), if_pos ha.2]
    exact ⟨rfl, rfl⟩
  · rw [getWHRCategory, if_neg (not_le.mpr (by linarith [ha.1])),
      if_neg (not_le.mpr ha.1), if_pos ha.2]
    exact ⟨rfl, rfl⟩
  · rw [getWHRCategory, if_neg (not_le.mpr (by linarith)),
      if_neg (not_le.mpr (by linarith)), if_neg (not_le.mpr ha)]
    exact ⟨rfl, rfl⟩

/-- A profile with waist 85 and hips 100 supplied. -/
def presentWhrProfile : UserData :=
  ⟨Gender.male, UnitSystem.metric, 30, 180, 80, ActivityLevel.moderateActivity,
    none, some ⟨some 85, some 100, none, none⟩⟩

/-- C6 witness: with waist 85 and hips 100 the `whr` field is present and
carries the ratio with its band record. -/
theorem whr_presence_amended_witness :
    (calculateAllResults presentWhrProfile 0.8).whr =
      some ⟨85 / 100,
        (getWHRCategory (85 / 100) presentWhrProfile.gender).category,
        (getWHRCategory (85 / 100) presentWhrProfile.gender).description,
        (getWHRCategory (85 / 100) presentWhrProfile.gender).imageIndex⟩ :=
  (whr_presence_amended presentWhrProfile 0.8).2.1
    ⟨some 85, some 100, none, none⟩ 85 100 rfl rfl rfl (by norm_num)
    (by norm_num)

/-- C7: validation is total and only reports: `isValid` is true exactly
when `errors` is empty; every out-of-range circumference is recorded in
`fieldErrors` regardless of the flag; the `errors` list contains the
circumference messages only when `measurementsOptional` is true; hence a
profile whose only out-of-range fields are circumferences is invalid
with the flag true and valid with the flag false. -/
theorem validateUserData_gating (u : PartialUserData) (b : Bool) :
    ((validateUserData u b).isValid = true ↔
      (validateUserData u b).errors = []) ∧
    ((validateUserData u b).fieldErrors =
      ⟨ageError u, heightError u, weightError u, bodyFatError u,
        waistError u, hipsError u, neckError u, shouldersError u⟩) ∧
    ((validateUserData u false).errors =
      (ageError u).toList ++ (weightError u).toList
        ++ (heightError u).toList ++ (bodyFatError u).toList) ∧
    ((validateUserData u true).errors =
      (ageError u).toList ++ (weightError u).toList
        ++ (heightError u).toList ++ (bodyFatError u).toList
        ++ ((waistError u).toList ++ (hipsError u).toList
            ++ (neckError u).toList ++ (shouldersError u).toList)) ∧
    (ageError u = none → weightError u = none → heightError u = none →
      bodyFatError u = none →
      (validateUserData u false).isValid = true ∧
      ((waistError u ≠ none ∨ hipsError u ≠ none ∨ neckError u ≠ none ∨
          shouldersError u ≠ none) →
        (validateUserData u true).isValid = false)) := by
  refine ⟨?_, rfl, by simp [validateUserData], rfl,
    fun hA hW hH hB => ⟨?_, fun hc => ?_⟩⟩
  · simp [validateUserData, List.length_eq_zero]
  · simp [validateUserData, hA, hW, hH, hB]
  · rcases hc with h | h | h | h <;>
      rcases Option.ne_none_iff_exists'.mp h with ⟨x, hx⟩ <;>
      simp [validateUserData, hA, hW, hH, hB, hx]

/-- A profile whose only out-of-range field is the waist circumference. -/
def circOnlyProfile : PartialUserData :=
  ⟨some Gender.male, some UnitSystem.metric, some 30, some 180, some 80,
    some ActivityLevel.moderateActivity, none,
    some ⟨some 10, none, none, none⟩⟩

/-- C7 witness: the waist-only-invalid profile is valid with the flag
false and invalid with the flag true. -/
theorem validateUserData_gating_witness :
    (validateUserData circOnlyProfile false).isValid = true ∧
    (validateUserData circOnlyProfile true).isValid = false := by
  have h := (validateUserData_gating circOnlyProfile true).2.2.2.2
    (by norm_num [ageError, rangeError, circOnlyProfile])
    (by norm_num [weightError, rangeError, circOnlyProfile])
    (by norm_num [heightError, rangeError, circOnlyProfile])
    (by norm_num [bodyFatError, rangeError, circOnlyProfile])
  have hw : waistError circOnlyProfile =
      some "Waist circumference must be between 30 and 200 cm" := by
    norm_num [waistError, rangeError, circOnlyProfile]
  exact ⟨h.1, h.2 (Or.inl (by rw [hw]; exact Option.some_ne_none _))⟩

/-- C8: converting with equal units is the identity, and converting
between distinct units and back returns the input exactly in exact
rational arithmetic, for both the weight (2.20462) and height (2.54)
conversions. -/
theorem convert_roundtrip (x : ℚ) :
    (∀ a : WeightUnit, convertWeight x a a = x) ∧
    (∀ a : HeightUnit, convertHeight x a a = x) ∧
    (∀ a b : WeightUnit, a ≠ b →
      convertWeight (convertWeight x a b) b a = x) ∧
    (∀ a b : HeightUnit, a ≠ b →
      convertHeight (convertHeight x a b) b a = x) := by
  have wkl : ∀ y : ℚ, convertWeight y WeightUnit.kg WeightUnit.lbs =
      y * 2.20462 := fun y => rfl
  have wlk : ∀ y : ℚ, convertWeight y WeightUnit.lbs WeightUnit.kg =
      y / 2.20462 := fun y => rfl
  have hcf : ∀ y : ℚ, convertHeight y HeightUnit.cm HeightUnit.ftIn =
      y / 2.54 := fun y => rfl
  have hfc : ∀ y : ℚ, convertHeight y HeightUnit.ftIn HeightUnit.cm =
      y * 2.54 := fun y => rfl
  refine ⟨fun a => by simp [convertWeight], fun a => by simp [convertHeight],
    fun a b hab => ?_, fun a b hab => ?_⟩
  · cases a <;> cases b
    · exact absurd rfl hab
    · rw [wkl, wlk]
      exact mul_div_cancel_right₀ x (by norm_num)
    · rw [wlk, wkl]
      exact div_mul_cancel₀ x (by norm_num)
    · exact absurd rfl hab
  · cases a <;> cases b
    · exact absurd rfl hab
    · rw [hcf, hfc]
      exact div_mul_cancel₀ x (by norm_num)
    · rw [hfc, hcf]
      exact mul_div_cancel_right₀ x (by norm_num)
    · exact absurd rfl hab

/-- C8 witness: the weight and height round-trips and identities at 3. -/
theorem convert_roundtrip_witness :
    convertWeight (convertWeight 3 WeightUnit.kg WeightUnit.lbs)
      WeightUnit.lbs WeightUnit.kg = 3 ∧
    convertHeight (convertHeight 3 HeightUnit.cm HeightUnit.ftIn)
      HeightUnit.ftIn HeightUnit.cm = 3 ∧
    convertWeight 3 WeightUnit.kg WeightUnit.kg = 3 ∧
    convertHeight 3 HeightUnit.ftIn HeightUnit.ftIn = 3 :=
  ⟨(convert_roundtrip 3).2.2.1 WeightUnit.kg WeightUnit.lbs (by simp),
    (convert_roundtrip 3).2.2.2 HeightUnit.cm HeightUnit.ftIn (by simp),
    (convert_roundtrip 3).1 WeightUnit.kg,
    (convert_roundtrip 3).2.1 HeightUnit.ftIn⟩

/-- C9: the `weeklyFatLoss` field is the constant pair (1.4, 0.8),
computed from the fixed deficits 700 and 400 at 3500 kcal per pound,
independent of the profile; by contrast the goal-recommendation weekly
fat-loss fields divide the actual safe deficits by 7700. -/
theorem weeklyFatLoss_constant (u : UserData) (p : ℚ) :
    (calculateAllResults u p).weeklyFatLoss =
      ⟨calculateWeeklyFatLoss 700, calculateWeeklyFatLoss 400⟩ ∧
    (calculateAllResults u p).weeklyFatLoss.rapid = 1.4 ∧
    (calculateAllResults u p).weeklyFatLoss.slow = 0.8 ∧
    (calculateAllResults u p).goalRecommendations.maxWeeklyFatLoss =
      calculateSafeDeficit (calculateBMI u.weight u.height)
        (calculateTDEE
          (calculateBMR u.gender u.weight u.height u.age u.bodyFat)
          u.activityLevel) * 7 / 7700 ∧
    (calculateAllResults u p).goalRecommendations.sustainableWeeklyFatLoss =
      min 400 (calculateSafeDeficit (calculateBMI u.weight u.height)
        (calculateTDEE
          (calculateBMR u.gender u.weight u.height u.age u.bodyFat)
          u.activityLevel) * 0.8) * 7 / 7700 := by
  refine ⟨rfl, ?_, ?_, rfl, rfl⟩
  · show calculateWeeklyFatLoss 700 = 1.4
    norm_num [calculateWeeklyFatLoss]
  · show calculateWeeklyFatLoss 400 = 0.8
    norm_num [calculateWeeklyFatLoss]

/-- C10: the orchestrator computes `proteinIntakeForTarget` through the
per-pound path (the flag defaults to true), so it equals
`bestTargetWeight * 2.20462 * proteinPerKg`, while the legacy
`proteinIntake` field is per-kilogram against the ideal-weight target. -/
theorem proteinIntakeForTarget_perPound (u : UserData) (p w ps : ℚ) :
    (calculateAllResults u p).goalRecommendations.proteinIntakeForTarget =
      (calculateAllResults u p).goalRecommendations.bestTargetWeight
        * 2.20462 * p ∧
    (calculateAllResults u p).proteinIntake =
      (calculateAllResults u p).idealWeightRange.target * p ∧
    calculateProteinIntakeForTarget w ps true = w * 2.20462 * ps ∧
    calculateProteinIntakeForTarget w ps false = w * ps :=
  ⟨rfl, rfl, rfl, rfl⟩

end Kalorien
